import Mathlib

/-!
Shallow embedding of `torchvision/prototype/models/efficientnet.py`.

The file under verification is configuration glue: eight factory functions
`efficientnet_b0` .. `efficientnet_b7`, eight one-member weight enums, and a
shared dispatch helper `_efficientnet`.  We embed the Python dictionaries of
keyword arguments as association lists over a small universe of Python
values, and we embed each factory as a total Lean function that returns the
emitted warnings, the resolved weights value, and either the pair of
recorded calls (to the configuration function and to the model constructor)
or the `TypeError` that Python call semantics raise when a splatted keyword
collides with an explicitly passed keyword.

External code (the `EfficientNet` module itself, `_efficientnet_conf`, the
weights API `Weights.verify` / `state_dict`, and `_IMAGENET_CATEGORIES`) is
not part of the source slice; those parts are modelled from the spec as
uninterpreted recorders of their arguments, and the ImageNet category list
is abstracted as a parameter `cats` throughout.

Floating point literals of the source (`1.1`, `0.2`, `77.692`, ...) are
embedded as exact rationals; every claim only passes them through and
compares them for equality, never computes with them.
-/

set_option autoImplicit false

/-- Universe of Python values that occur as keyword-argument values in this
file: integers, booleans, strings, `None`, and the
`partial(nn.BatchNorm2d, eps=..., momentum=...)` object that the B5-B7
builders pass as `norm_layer` (recorded by its two parameters). -/
inductive PyVal where
  | int (n : Int)
  | bool (b : Bool)
  | str (s : String)
  | pynone
  | batchNorm2d (eps momentum : ℚ)
deriving DecidableEq

/-- Python truthiness for the embedded values (`bool(x)`): nonzero integers,
`True`, nonempty strings and arbitrary objects are truthy; `None`, `0`,
`False` and `""` are falsy. -/
def PyVal.truthy : PyVal → Bool
  | PyVal.int n => n != 0
  | PyVal.bool b => b
  | PyVal.str s => s != ""
  | PyVal.pynone => false
  | PyVal.batchNorm2d _ _ => true

/-- A `**kwargs` dictionary: an association list of keyword names to values.
Python dictionaries have unique keys; all operations below implement exact
dict semantics on lists whose keys are unique (and stay total otherwise). -/
abbrev Kwargs := List (String × PyVal)

/-- Membership test, `"key" in kwargs`. -/
def Kwargs.hasKey : Kwargs → String → Bool
  | [], _ => false
  | (k, _) :: rest, key => k == key || Kwargs.hasKey rest key

/-- Lookup, `kwargs.get(key)`: the value at the first matching key. -/
def Kwargs.get? : Kwargs → String → Option PyVal
  | [], _ => none
  | (k, v) :: rest, key => if k == key then some v else Kwargs.get? rest key

/-- Lookup with `None` as default; used to read the value that
`kwargs.pop("pretrained")` returns (the key is present at every use site). -/
def Kwargs.getD (kw : Kwargs) (key : String) : PyVal :=
  (Kwargs.get? kw key).getD PyVal.pynone

/-- Key removal, the removal part of `kwargs.pop(key)`. -/
def Kwargs.erase : Kwargs → String → Kwargs
  | [], _ => []
  | (k, v) :: rest, key =>
    if k == key then Kwargs.erase rest key else (k, v) :: Kwargs.erase rest key

/-- Assignment `kwargs[key] = v`: replaces the value at an existing key in
place, otherwise appends the new binding at the end. -/
def Kwargs.set : Kwargs → String → PyVal → Kwargs
  | [], key, v => [(key, v)]
  | (k, w) :: rest, key, v =>
    if k == key then (key, v) :: rest else (k, w) :: Kwargs.set rest key v

/-- Interpolation modes of `torchvision.transforms.functional`; only
`BICUBIC` is used by this file, the others witness that the field carries
information. -/
inductive InterpolationMode where
  | bicubic
  | bilinear
  | nearest
deriving DecidableEq

/-- The `meta` dictionary of a weight entry.  Every entry of this file
carries exactly the keys `categories` and `interpolation` (from
`_common_meta`) plus `size`, `recipe`, `acc@1` and `acc@5`. -/
structure MetaDict where
  categories : List String
  interpolation : InterpolationMode
  size : Nat × Nat
  recipe : String
  acc1 : ℚ
  acc5 : ℚ
deriving DecidableEq

/-- A `WeightEntry` of the prototype weights API: the checkpoint URL, the
`partial(ImageNetEval, crop_size=..., resize_size=..., interpolation=...)`
preprocessing transform recorded by its three parameters, and the metadata
dictionary. -/
structure WeightEntry where
  url : String
  crop_size : Nat
  resize_size : Nat
  interpolation : InterpolationMode
  meta : MetaDict
deriving DecidableEq

/-- Modelled from the spec: `_efficientnet_conf` ("the compound scaling
formula ... explicitly imported from elsewhere and not shown") lives in the
external model-definition module, so a call to it is recorded by its
arguments: the width multiplier, the depth multiplier, and the forwarded
keyword arguments.  This record stands for the returned
`List[MBConvConfig]`. -/
structure ConfCall where
  width_mult : ℚ
  depth_mult : ℚ
  kwargs : Kwargs
deriving DecidableEq

/-- Modelled from the spec: the external `EfficientNet` constructor and
`load_state_dict` ("the actual convolutional network topology ... lives in
an external model-definition module"; "reusing an external checkpoint
loader").  A model is recorded by the constructor's three arguments and by
the checkpoint-loading step that was applied to it: `loaded = some (url,
progress)` after `model.load_state_dict(weights.state_dict(progress))`,
`loaded = none` for a model returned exactly as constructed. -/
structure EfficientNetModel where
  inverted_residual_setting : ConfCall
  dropout : ℚ
  ctorKwargs : Kwargs
  loaded : Option (String × Bool)
deriving DecidableEq

/-- Everything observable about one factory call: the deprecation warnings
it emitted, the weights value after resolving the deprecated flag, and
either the recorded configuration call paired with the constructed model,
or the `TypeError` message Python raises on a duplicated keyword. -/
structure BuildResult where
  warnings : List String
  resolvedWeights : Option WeightEntry
  outcome : Except String (ConfCall × EfficientNetModel)

/-- The deprecation message of every builder, verbatim from the source. -/
def deprecationMsg : String :=
  "The argument pretrained is deprecated, please use weights instead."

/-- Message of the `TypeError` Python raises when a key of a splatted
`**kwargs` dictionary collides with an explicitly passed argument. -/
def typeErrMsg : String :=
  "TypeError: got multiple values for a keyword argument"

/-- Modelled from the spec: `Weights.verify` of the external prototype
weights API validates an `Optional[Weights]` argument and returns it; on
the values representable here (None or a weight entry) it is the
identity. -/
def Weights.verify (w : Option WeightEntry) : Option WeightEntry := w

/-- Source lines 42-50, body of `_efficientnet`: if weights is not None,
`kwargs["num_classes"] = len(weights.meta["categories"])`; construct
`EfficientNet(inverted_residual_setting, dropout, **kwargs)`; if weights is
not None, `model.load_state_dict(weights.state_dict(progress=progress))`. -/
def _efficientnet (inverted_residual_setting : ConfCall) (dropout : ℚ)
    (weights : Option WeightEntry) (progress : Bool) (kwargs : Kwargs) :
    EfficientNetModel :=
  let kwargs := match weights with
    | some w =>
      Kwargs.set kwargs "num_classes" (PyVal.int (Int.ofNat w.meta.categories.length))
    | none => kwargs
  { inverted_residual_setting := inverted_residual_setting
    dropout := dropout
    ctorKwargs := kwargs
    loaded := match weights with
      | some w => some (w.url, progress)
      | none => none }

/-- The call `_efficientnet_conf(width_mult=..., depth_mult=..., **kwargs)`:
Python raises `TypeError` at the call site when the splatted dictionary
contains one of the two explicitly passed keywords, otherwise the external
configuration function is invoked (recorded as a `ConfCall`). -/
def call_efficientnet_conf (wm dm : ℚ) (kwargs : Kwargs) :
    Except String ConfCall :=
  if Kwargs.hasKey kwargs "width_mult" || Kwargs.hasKey kwargs "depth_mult" then
    Except.error typeErrMsg
  else
    Except.ok { width_mult := wm, depth_mult := dm, kwargs := kwargs }

/-- Keyword names that collide at the call
`_efficientnet(inverted_residual_setting, dropout=..., weights=...,
progress=..., [norm_layer=...,] **kwargs)`: the named parameters of
`_efficientnet` (its first parameter is bound positionally, so a same-named
splatted keyword also raises) plus the extra explicit keywords of the
particular builder (`norm_layer` for B5-B7, recorded in `extra`). -/
def effCollision (extra kwargs : Kwargs) : Bool :=
  (["inverted_residual_setting", "dropout", "weights", "progress"]
      ++ extra.map Prod.fst).any (fun k => Kwargs.hasKey kwargs k)

/-- The call `_efficientnet(inverted_residual_setting, dropout=...,
weights=..., progress=..., [norm_layer=...,] **kwargs)`: `TypeError` on a
duplicated keyword, otherwise the builder's extra explicit keywords are
merged in front of the splatted ones and `_efficientnet` runs. -/
def call_efficientnet (irs : ConfCall) (dropout : ℚ)
    (weights : Option WeightEntry) (progress : Bool) (extra kwargs : Kwargs) :
    Except String EfficientNetModel :=
  if effCollision extra kwargs then
    Except.error typeErrMsg
  else
    Except.ok (_efficientnet irs dropout weights progress (extra ++ kwargs))

/-- Resolution of the deprecated flag, source lines 171-173 (and the same
three lines of every other builder): when `"pretrained" in kwargs`, the
weights argument is replaced by the variant's default entry if the popped
value is truthy and by `None` otherwise; without the flag the caller's
weights argument stands. -/
def pretrResolve (de : List String → WeightEntry) (cats : List String)
    (weights : Option WeightEntry) (kw : Kwargs) : Option WeightEntry :=
  if Kwargs.hasKey kw "pretrained" then
    (if PyVal.truthy (Kwargs.getD kw "pretrained") then some (de cats) else none)
  else weights

/-- The kwargs dictionary after `kwargs.pop("pretrained")` ran (it runs
only when the key is present). -/
def stripPre (kw : Kwargs) : Kwargs :=
  if Kwargs.hasKey kw "pretrained" then Kwargs.erase kw "pretrained" else kw

/-- The two recorded calls every builder performs after flag resolution:
first `_efficientnet_conf`, then `_efficientnet`; a `TypeError` of either
call propagates. -/
def buildOutcome (wm dm dropout : ℚ) (weights : Option WeightEntry)
    (progress : Bool) (extra kw2 : Kwargs) :
    Except String (ConfCall × EfficientNetModel) :=
  match call_efficientnet_conf wm dm kw2 with
  | Except.error e => Except.error e
  | Except.ok irs =>
    match call_efficientnet irs dropout weights progress extra kw2 with
    | Except.error e => Except.error e
    | Except.ok model => Except.ok (irs, model)

/-- Common body of the eight builders (source lines 168-274; the eight
functions are textually identical up to the default weight entry, the width
and depth multipliers, the dropout rate and the extra `norm_layer`
keyword): warn and resolve the deprecated flag, run `Weights.verify`, call
the configuration function, call `_efficientnet`. -/
def buildEfficientNet (de : List String → WeightEntry) (wm dm dropout : ℚ)
    (extra : Kwargs) (cats : List String) (weights : Option WeightEntry)
    (progress : Bool) (kw : Kwargs) : BuildResult :=
  { warnings := if Kwargs.hasKey kw "pretrained" then [deprecationMsg] else []
    resolvedWeights := Weights.verify (pretrResolve de cats weights kw)
    outcome := buildOutcome wm dm dropout
      (Weights.verify (pretrResolve de cats weights kw)) progress extra
      (stripPre kw) }

/-- The `meta` dictionary literal `{**_common_meta, "size": ..., "recipe":
..., "acc@1": ..., "acc@5": ...}`, where `_common_meta = {"categories":
_IMAGENET_CATEGORIES, "interpolation": InterpolationMode.BICUBIC}` (source
line 53); the external `_IMAGENET_CATEGORIES` list is the parameter
`cats`. -/
def _common_meta (cats : List String) (size : Nat × Nat) (recipe : String)
    (a1 a5 : ℚ) : MetaDict :=
  { categories := cats
    interpolation := InterpolationMode.bicubic
    size := size
    recipe := recipe
    acc1 := a1
    acc5 := a5 }

/-- Recipe URL shared by all eight entries. -/
def recipeUrl : String :=
  "https://github.com/pytorch/vision/tree/main/references/classification#efficientnet"

/-- Weight entry of `EfficientNetB0Weights`, source lines 56-67. -/
def EfficientNetB0Weights.ImageNet1K_TimmV1 (cats : List String) : WeightEntry :=
  { url := "https://download.pytorch.org/models/efficientnet_b0_rwightman-3dd342df.pth"
    crop_size := 224
    resize_size := 256
    interpolation := InterpolationMode.bicubic
    meta := _common_meta cats (224, 224) recipeUrl 77.692 93.532 }

/-- Weight entry of `EfficientNetB1Weights`, source lines 70-81. -/
def EfficientNetB1Weights.ImageNet1K_TimmV1 (cats : List String) : WeightEntry :=
  { url := "https://download.pytorch.org/models/efficientnet_b1_rwightman-533bc792.pth"
    crop_size := 240
    resize_size := 256
    interpolation := InterpolationMode.bicubic
    meta := _common_meta cats (240, 240) recipeUrl 78.642 94.186 }

/-- Weight entry of `EfficientNetB2Weights`, source lines 84-95. -/
def EfficientNetB2Weights.ImageNet1K_TimmV1 (cats : List String) : WeightEntry :=
  { url := "https://download.pytorch.org/models/efficientnet_b2_rwightman-bcdf34b7.pth"
    crop_size := 288
    resize_size := 288
    interpolation := InterpolationMode.bicubic
    meta := _common_meta cats (288, 288) recipeUrl 80.608 95.310 }

/-- Weight entry of `EfficientNetB3Weights`, source lines 98-109. -/
def EfficientNetB3Weights.ImageNet1K_TimmV1 (cats : List String) : WeightEntry :=
  { url := "https://download.pytorch.org/models/efficientnet_b3_rwightman-cf984f9c.pth"
    crop_size := 300
    resize_size := 320
    interpolation := InterpolationMode.bicubic
    meta := _common_meta cats (300, 300) recipeUrl 82.008 96.054 }

/-- Weight entry of `EfficientNetB4Weights`, source lines 112-123. -/
def EfficientNetB4Weights.ImageNet1K_TimmV1 (cats : List String) : WeightEntry :=
  { url := "https://download.pytorch.org/models/efficientnet_b4_rwightman-7eb33cd5.pth"
    crop_size := 380
    resize_size := 384
    interpolation := InterpolationMode.bicubic
    meta := _common_meta cats (380, 380) recipeUrl 83.384 96.594 }

/-- Weight entry of `EfficientNetB5Weights`, source lines 126-137. -/
def EfficientNetB5Weights.ImageNet1K_TFV1 (cats : List String) : WeightEntry :=
  { url := "https://download.pytorch.org/models/efficientnet_b5_lukemelas-b6417697.pth"
    crop_size := 456
    resize_size := 456
    interpolation := InterpolationMode.bicubic
    meta := _common_meta cats (456, 456) recipeUrl 83.444 96.628 }

/-- Weight entry of `EfficientNetB6Weights`, source lines 140-151. -/
def EfficientNetB6Weights.ImageNet1K_TFV1 (cats : List String) : WeightEntry :=
  { url := "https://download.pytorch.org/models/efficientnet_b6_lukemelas-c76e70fd.pth"
    crop_size := 528
    resize_size := 528
    interpolation := InterpolationMode.bicubic
    meta := _common_meta cats (528, 528) recipeUrl 84.008 96.916 }

/-- Weight entry of `EfficientNetB7Weights`, source lines 154-165. -/
def EfficientNetB7Weights.ImageNet1K_TFV1 (cats : List String) : WeightEntry :=
  { url := "https://download.pytorch.org/models/efficientnet_b7_lukemelas-dcc49843.pth"
    crop_size := 600
    resize_size := 600
    interpolation := InterpolationMode.bicubic
    meta := _common_meta cats (600, 600) recipeUrl 84.122 96.908 }

/-- The `norm_layer=partial(nn.BatchNorm2d, eps=0.001, momentum=0.01)`
keyword the B5-B7 builders add to their `_efficientnet` call. -/
def normLayerKw : Kwargs :=
  [("norm_layer", PyVal.batchNorm2d 0.001 0.01)]

/-- Builder `efficientnet_b0`, source lines 168-176. -/
def efficientnet_b0 (cats : List String) (weights : Option WeightEntry)
    (progress : Bool) (kwargs : Kwargs) : BuildResult :=
  buildEfficientNet EfficientNetB0Weights.ImageNet1K_TimmV1 1.0 1.0 0.2 []
    cats weights progress kwargs

/-- Builder `efficientnet_b1`, source lines 179-187. -/
def efficientnet_b1 (cats : List String) (weights : Option WeightEntry)
    (progress : Bool) (kwargs : Kwargs) : BuildResult :=
  buildEfficientNet EfficientNetB1Weights.ImageNet1K_TimmV1 1.0 1.1 0.2 []
    cats weights progress kwargs

/-- Builder `efficientnet_b2`, source lines 190-198. -/
def efficientnet_b2 (cats : List String) (weights : Option WeightEntry)
    (progress : Bool) (kwargs : Kwargs) : BuildResult :=
  buildEfficientNet EfficientNetB2Weights.ImageNet1K_TimmV1 1.1 1.2 0.3 []
    cats weights progress kwargs

/-- Builder `efficientnet_b3`, source lines 201-209. -/
def efficientnet_b3 (cats : List String) (weights : Option WeightEntry)
    (progress : Bool) (kwargs : Kwargs) : BuildResult :=
  buildEfficientNet EfficientNetB3Weights.ImageNet1K_TimmV1 1.2 1.4 0.3 []
    cats weights progress kwargs

/-- Builder `efficientnet_b4`, source lines 212-220. -/
def efficientnet_b4 (cats : List String) (weights : Option WeightEntry)
    (progress : Bool) (kwargs : Kwargs) : BuildResult :=
  buildEfficientNet EfficientNetB4Weights.ImageNet1K_TimmV1 1.4 1.8 0.4 []
    cats weights progress kwargs

/-- Builder `efficientnet_b5`, source lines 223-238. -/
def efficientnet_b5 (cats : List String) (weights : Option WeightEntry)
    (progress : Bool) (kwargs : Kwargs) : BuildResult :=
  buildEfficientNet EfficientNetB5Weights.ImageNet1K_TFV1 1.6 2.2 0.4
    normLayerKw cats weights progress kwargs

/-- Builder `efficientnet_b6`, source lines 241-256. -/
def efficientnet_b6 (cats : List String) (weights : Option WeightEntry)
    (progress : Bool) (kwargs : Kwargs) : BuildResult :=
  buildEfficientNet EfficientNetB6Weights.ImageNet1K_TFV1 1.8 2.6 0.5
    normLayerKw cats weights progress kwargs

/-- Builder `efficientnet_b7`, source lines 259-274. -/
def efficientnet_b7 (cats : List String) (weights : Option WeightEntry)
    (progress : Bool) (kwargs : Kwargs) : BuildResult :=
  buildEfficientNet EfficientNetB7Weights.ImageNet1K_TFV1 2.0 3.1 0.5
    normLayerKw cats weights progress kwargs

/-- The eight builders indexed by variant number. -/
def builders (i : Fin 8) :
    List String → Option WeightEntry → Bool → Kwargs → BuildResult :=
  match i.val with
  | 0 => efficientnet_b0
  | 1 => efficientnet_b1
  | 2 => efficientnet_b2
  | 3 => efficientnet_b3
  | 4 => efficientnet_b4
  | 5 => efficientnet_b5
  | 6 => efficientnet_b6
  | _ => efficientnet_b7

/-- Default weight entry of each variant (the sole member of its weight
enum). -/
def variantEntry (i : Fin 8) : List String → WeightEntry :=
  match i.val with
  | 0 => EfficientNetB0Weights.ImageNet1K_TimmV1
  | 1 => EfficientNetB1Weights.ImageNet1K_TimmV1
  | 2 => EfficientNetB2Weights.ImageNet1K_TimmV1
  | 3 => EfficientNetB3Weights.ImageNet1K_TimmV1
  | 4 => EfficientNetB4Weights.ImageNet1K_TimmV1
  | 5 => EfficientNetB5Weights.ImageNet1K_TFV1
  | 6 => EfficientNetB6Weights.ImageNet1K_TFV1
  | _ => EfficientNetB7Weights.ImageNet1K_TFV1

/-- Width multiplier each builder passes to `_efficientnet_conf`. -/
def variantWidth (i : Fin 8) : ℚ :=
  match i.val with
  | 0 => 1.0
  | 1 => 1.0
  | 2 => 1.1
  | 3 => 1.2
  | 4 => 1.4
  | 5 => 1.6
  | 6 => 1.8
  | _ => 2.0

/-- Depth multiplier each builder passes to `_efficientnet_conf`. -/
def variantDepth (i : Fin 8) : ℚ :=
  match i.val with
  | 0 => 1.0
  | 1 => 1.1
  | 2 => 1.2
  | 3 => 1.4
  | 4 => 1.8
  | 5 => 2.2
  | 6 => 2.6
  | _ => 3.1

/-- Dropout rate each builder passes to `_efficientnet`. -/
def variantDropout (i : Fin 8) : ℚ :=
  match i.val with
  | 0 => 0.2
  | 1 => 0.2
  | 2 => 0.3
  | 3 => 0.3
  | 4 => 0.4
  | 5 => 0.4
  | 6 => 0.5
  | _ => 0.5

/-- Extra explicit keywords of each builder's `_efficientnet` call: the
`norm_layer` argument for B5-B7, nothing for B0-B4. -/
def variantExtra (i : Fin 8) : Kwargs :=
  match i.val with
  | 0 => []
  | 1 => []
  | 2 => []
  | 3 => []
  | 4 => []
  | _ => normLayerKw

/-- All eight weight entries, in variant order. -/
def allEntries (cats : List String) : List WeightEntry :=
  [EfficientNetB0Weights.ImageNet1K_TimmV1 cats,
   EfficientNetB1Weights.ImageNet1K_TimmV1 cats,
   EfficientNetB2Weights.ImageNet1K_TimmV1 cats,
   EfficientNetB3Weights.ImageNet1K_TimmV1 cats,
   EfficientNetB4Weights.ImageNet1K_TimmV1 cats,
   EfficientNetB5Weights.ImageNet1K_TFV1 cats,
   EfficientNetB6Weights.ImageNet1K_TFV1 cats,
   EfficientNetB7Weights.ImageNet1K_TFV1 cats]

/-- The module's `__all__` list, source lines 14-32, verbatim. -/
def __all__ : List String :=
  ["EfficientNet",
   "EfficientNetB0Weights",
   "EfficientNetB1Weights",
   "EfficientNetB2Weights",
   "EfficientNetB3Weights",
   "EfficientNetB4Weights",
   "EfficientNetB5Weights",
   "EfficientNetB6Weights",
   "EfficientNetB7Weights",
   "efficientnet_b0",
   "efficientnet_b1",
   "efficientnet_b2",
   "efficientnet_b3",
   "efficientnet_b4",
   "efficientnet_b5",
   "efficientnet_b6",
   "efficientnet_b7"]

/-- The module's factory functions, each paired with its Python name. -/
def factories :
    List (String × (List String → Option WeightEntry → Bool → Kwargs → BuildResult)) :=
  [("efficientnet_b0", efficientnet_b0),
   ("efficientnet_b1", efficientnet_b1),
   ("efficientnet_b2", efficientnet_b2),
   ("efficientnet_b3", efficientnet_b3),
   ("efficientnet_b4", efficientnet_b4),
   ("efficientnet_b5", efficientnet_b5),
   ("efficientnet_b6", efficientnet_b6),
   ("efficientnet_b7", efficientnet_b7)]

/-- The module's weight enum classes: each Python class is embedded as the
list of its members, a member being a (member name, entry) pair. -/
def weightEnums :
    List (String × (List String → List (String × WeightEntry))) :=
  [("EfficientNetB0Weights",
    fun cats => [("ImageNet1K_TimmV1", EfficientNetB0Weights.ImageNet1K_TimmV1 cats)]),
   ("EfficientNetB1Weights",
    fun cats => [("ImageNet1K_TimmV1", EfficientNetB1Weights.ImageNet1K_TimmV1 cats)]),
   ("EfficientNetB2Weights",
    fun cats => [("ImageNet1K_TimmV1", EfficientNetB2Weights.ImageNet1K_TimmV1 cats)]),
   ("EfficientNetB3Weights",
    fun cats => [("ImageNet1K_TimmV1", EfficientNetB3Weights.ImageNet1K_TimmV1 cats)]),
   ("EfficientNetB4Weights",
    fun cats => [("ImageNet1K_TimmV1", EfficientNetB4Weights.ImageNet1K_TimmV1 cats)]),
   ("EfficientNetB5Weights",
    fun cats => [("ImageNet1K_TFV1", EfficientNetB5Weights.ImageNet1K_TFV1 cats)]),
   ("EfficientNetB6Weights",
    fun cats => [("ImageNet1K_TFV1", EfficientNetB6Weights.ImageNet1K_TFV1 cats)]),
   ("EfficientNetB7Weights",
    fun cats => [("ImageNet1K_TFV1", EfficientNetB7Weights.ImageNet1K_TFV1 cats)])]

/-- Python names of the eight factory functions, as literal strings
(independent of `factories`, which pairs them with the functions). -/
def factoryNames : List String :=
  ["efficientnet_b0", "efficientnet_b1", "efficientnet_b2", "efficientnet_b3",
   "efficientnet_b4", "efficientnet_b5", "efficientnet_b6", "efficientnet_b7"]

/-- Python names of the eight weight enum classes, as literal strings. -/
def enumNames : List String :=
  ["EfficientNetB0Weights", "EfficientNetB1Weights", "EfficientNetB2Weights",
   "EfficientNetB3Weights", "EfficientNetB4Weights", "EfficientNetB5Weights",
   "EfficientNetB6Weights", "EfficientNetB7Weights"]

/-- True when a factory call completed without a `TypeError`. -/
def isOkB : Except String (ConfCall × EfficientNetModel) → Bool
  | Except.ok _ => true
  | Except.error _ => false

/-- Placeholder configuration record used by `confOf` on an erroring run. -/
def defaultConf : ConfCall := { width_mult := 0, depth_mult := 0, kwargs := [] }

/-- Placeholder model used by `modelOf` on an erroring run. -/
def defaultModel : EfficientNetModel :=
  { inverted_residual_setting := defaultConf, dropout := 0, ctorKwargs := [],
    loaded := none }

/-- The recorded `_efficientnet_conf` call of a completed factory run. -/
def confOf (b : BuildResult) : ConfCall :=
  match b.outcome with
  | Except.ok pr => pr.1
  | Except.error _ => defaultConf

/-- The constructed model of a completed factory run. -/
def modelOf (b : BuildResult) : EfficientNetModel :=
  match b.outcome with
  | Except.ok pr => pr.2
  | Except.error _ => defaultModel

/-- Boolean prefix test on character lists, used to state that the URL
fields of the weight entries are download links. -/
def listPre : List Char → List Char → Bool
  | [], _ => true
  | _ :: _, [] => false
  | c :: cs, d :: ds => c == d && listPre cs ds

/-- Boolean string prefix test (`s.startswith(pre)`). -/
def strHasPrefix (pre s : String) : Bool := listPre pre.toList s.toList

theorem Weights.verify_eq (w : Option WeightEntry) : Weights.verify w = w := rfl

theorem Kwargs.get?_set_self (kw : Kwargs) (k : String) (v : PyVal) :
    Kwargs.get? (Kwargs.set kw k v) k = some v := by
  induction kw with
  | nil => simp [Kwargs.set, Kwargs.get?]
  | cons p rest ih =>
    obtain ⟨k1, v1⟩ := p
    by_cases h : (k1 == k) = true
    · simp [Kwargs.set, h, Kwargs.get?]
    · simp [Kwargs.set, h, Kwargs.get?, ih]

theorem Kwargs.get?_set_ne (kw : Kwargs) (k k2 : String) (v : PyVal)
    (h : k2 ≠ k) :
    Kwargs.get? (Kwargs.set kw k v) k2 = Kwargs.get? kw k2 := by
  have hb : (k == k2) = false := beq_eq_false_iff_ne.mpr (Ne.symm h)
  induction kw with
  | nil => simp [Kwargs.set, Kwargs.get?, hb]
  | cons p rest ih =>
    obtain ⟨k1, v1⟩ := p
    by_cases h1 : (k1 == k) = true
    · have e1 : k1 = k := eq_of_beq h1
      subst e1
      simp [Kwargs.set, Kwargs.get?, hb]
    · simp [Kwargs.set, h1, Kwargs.get?, ih]

theorem Kwargs.hasKey_set_ne (kw : Kwargs) (k k2 : String) (v : PyVal)
    (h : k2 ≠ k) :
    Kwargs.hasKey (Kwargs.set kw k v) k2 = Kwargs.hasKey kw k2 := by
  have hb : (k == k2) = false := beq_eq_false_iff_ne.mpr (Ne.symm h)
  induction kw with
  | nil => simp [Kwargs.set, Kwargs.hasKey, hb]
  | cons p rest ih =>
    obtain ⟨k1, v1⟩ := p
    by_cases h1 : (k1 == k) = true
    · have e1 : k1 = k := eq_of_beq h1
      subst e1
      simp [Kwargs.set, Kwargs.hasKey, hb]
    · simp [Kwargs.set, h1, Kwargs.hasKey, ih]

theorem Kwargs.hasKey_erase_self (kw : Kwargs) (k : String) :
    Kwargs.hasKey (Kwargs.erase kw k) k = false := by
  induction kw with
  | nil => simp [Kwargs.erase, Kwargs.hasKey]
  | cons p rest ih =>
    obtain ⟨k1, v1⟩ := p
    by_cases h : (k1 == k) = true
    · simp [Kwargs.erase, h, ih]
    · simp [Kwargs.erase, h, Kwargs.hasKey, ih]

theorem Kwargs.hasKey_erase_of_not (kw : Kwargs) (k k2 : String)
    (h : Kwargs.hasKey kw k2 = false) :
    Kwargs.hasKey (Kwargs.erase kw k) k2 = false := by
  induction kw with
  | nil => simp [Kwargs.erase, Kwargs.hasKey]
  | cons p rest ih =>
    obtain ⟨k1, v1⟩ := p
    simp only [Kwargs.hasKey, Bool.or_eq_false_iff] at h
    by_cases h1 : (k1 == k) = true
    · simp [Kwargs.erase, h1, ih h.2]
    · simp [Kwargs.erase, h1, Kwargs.hasKey, h.1, ih h.2]

theorem buildOutcome_ok {wm dm dr : ℚ} {r : Option WeightEntry} {p : Bool}
    {ex kw2 : Kwargs}
    (h : isOkB (buildOutcome wm dm dr r p ex kw2) = true) :
    buildOutcome wm dm dr r p ex kw2 =
      Except.ok ({ width_mult := wm, depth_mult := dm, kwargs := kw2 },
        _efficientnet { width_mult := wm, depth_mult := dm, kwargs := kw2 }
          dr r p (ex ++ kw2)) := by
  unfold buildOutcome call_efficientnet_conf call_efficientnet at h ⊢
  cases h1 : Kwargs.hasKey kw2 "width_mult" || Kwargs.hasKey kw2 "depth_mult" with
  | false =>
    cases h2 : effCollision ex kw2 with
    | false => simp [h1, h2]
    | true => simp [h1, h2, isOkB] at h
  | true => simp [h1, isOkB] at h

theorem buildE_warnings (de : List String → WeightEntry) (wm dm dr : ℚ)
    (ex : Kwargs) (cats : List String) (w : Option WeightEntry) (p : Bool)
    (kw : Kwargs) :
    (buildEfficientNet de wm dm dr ex cats w p kw).warnings =
      (if Kwargs.hasKey kw "pretrained" then [deprecationMsg] else []) := rfl

theorem buildE_resolved (de : List String → WeightEntry) (wm dm dr : ℚ)
    (ex : Kwargs) (cats : List String) (w : Option WeightEntry) (p : Bool)
    (kw : Kwargs) :
    (buildEfficientNet de wm dm dr ex cats w p kw).resolvedWeights =
      pretrResolve de cats w kw := rfl

theorem buildE_outcome (de : List String → WeightEntry) (wm dm dr : ℚ)
    (ex : Kwargs) (cats : List String) (w : Option WeightEntry) (p : Bool)
    (kw : Kwargs) :
    (buildEfficientNet de wm dm dr ex cats w p kw).outcome =
      buildOutcome wm dm dr (pretrResolve de cats w kw) p ex (stripPre kw) := rfl

theorem buildE_ok {de : List String → WeightEntry} {wm dm dr : ℚ}
    {ex : Kwargs} {cats : List String} {w : Option WeightEntry} {p : Bool}
    {kw : Kwargs}
    (h : isOkB (buildEfficientNet de wm dm dr ex cats w p kw).outcome = true) :
    confOf (buildEfficientNet de wm dm dr ex cats w p kw) =
      { width_mult := wm, depth_mult := dm, kwargs := stripPre kw }
    ∧ modelOf (buildEfficientNet de wm dm dr ex cats w p kw) =
      _efficientnet { width_mult := wm, depth_mult := dm, kwargs := stripPre kw }
        dr (pretrResolve de cats w kw) p (ex ++ stripPre kw) := by
  have h0 : isOkB (buildOutcome wm dm dr (pretrResolve de cats w kw) p ex
      (stripPre kw)) = true := h
  have h2 := buildOutcome_ok h0
  constructor
  · simp [confOf, buildE_outcome, h2]
  · simp [modelOf, buildE_outcome, h2]

theorem _efficientnet_ctorKwargs_some (irs : ConfCall) (dr : ℚ)
    (e : WeightEntry) (p : Bool) (kw : Kwargs) :
    (_efficientnet irs dr (some e) p kw).ctorKwargs =
      Kwargs.set kw "num_classes"
        (PyVal.int (Int.ofNat e.meta.categories.length)) := rfl

theorem _efficientnet_ctorKwargs_none (irs : ConfCall) (dr : ℚ) (p : Bool)
    (kw : Kwargs) :
    (_efficientnet irs dr none p kw).ctorKwargs = kw := rfl

theorem _efficientnet_loaded (irs : ConfCall) (dr : ℚ)
    (w : Option WeightEntry) (p : Bool) (kw : Kwargs) :
    (_efficientnet irs dr w p kw).loaded =
      Option.map (fun e => (e.url, p)) w := by
  cases w <;> rfl

theorem _efficientnet_dropout (irs : ConfCall) (dr : ℚ)
    (w : Option WeightEntry) (p : Bool) (kw : Kwargs) :
    (_efficientnet irs dr w p kw).dropout = dr := by
  cases w <;> rfl

theorem _efficientnet_irs (irs : ConfCall) (dr : ℚ)
    (w : Option WeightEntry) (p : Bool) (kw : Kwargs) :
    (_efficientnet irs dr w p kw).inverted_residual_setting = irs := by
  cases w <;> rfl

theorem builders_eq (i : Fin 8) (cats : List String) (w : Option WeightEntry)
    (p : Bool) (kw : Kwargs) :
    builders i cats w p kw =
      buildEfficientNet (variantEntry i) (variantWidth i) (variantDepth i)
        (variantDropout i) (variantExtra i) cats w p kw := by
  fin_cases i <;> rfl

theorem normLayer_forwarded {de : List String → WeightEntry} {wm dm dr : ℚ}
    {cats : List String} {w : Option WeightEntry} {p : Bool} {kw : Kwargs}
    (hok : isOkB (buildEfficientNet de wm dm dr normLayerKw cats w p kw).outcome
      = true) :
    Kwargs.get?
      (modelOf (buildEfficientNet de wm dm dr normLayerKw cats w p kw)).ctorKwargs
      "norm_layer" = some (PyVal.batchNorm2d 0.001 0.01) := by
  obtain ⟨-, hm⟩ := buildE_ok hok
  rw [hm]
  cases hres : pretrResolve de cats w kw with
  | none =>
    rw [_efficientnet_ctorKwargs_none]
    simp [normLayerKw, Kwargs.get?]
  | some e =>
    rw [_efficientnet_ctorKwargs_some,
      Kwargs.get?_set_ne _ _ _ _ (by decide : ("norm_layer" : String) ≠ "num_classes")]
    simp [normLayerKw, Kwargs.get?]

theorem normLayer_absent {de : List String → WeightEntry} {wm dm dr : ℚ}
    {cats : List String} {w : Option WeightEntry} {p : Bool} {kw : Kwargs}
    (hnk : Kwargs.hasKey kw "norm_layer" = false)
    (hok : isOkB (buildEfficientNet de wm dm dr [] cats w p kw).outcome = true) :
    Kwargs.hasKey
      (modelOf (buildEfficientNet de wm dm dr [] cats w p kw)).ctorKwargs
      "norm_layer" = false := by
  obtain ⟨-, hm⟩ := buildE_ok hok
  rw [hm]
  have hk2 : Kwargs.hasKey (stripPre kw) "norm_layer" = false := by
    by_cases hp : Kwargs.hasKey kw "pretrained" = true
    · simp [stripPre, hp, Kwargs.hasKey_erase_of_not _ _ _ hnk]
    · simp [stripPre, hp, hnk]
  cases hres : pretrResolve de cats w kw with
  | none =>
    rw [_efficientnet_ctorKwargs_none]
    simpa using hk2
  | some e =>
    rw [_efficientnet_ctorKwargs_some,
      Kwargs.hasKey_set_ne _ _ _ _ (by decide : ("norm_layer" : String) ≠ "num_classes")]
    simpa using hk2

/-- C1: for every variant builder, if the keyword argument `pretrained` is
present in the call then exactly one deprecation warning is emitted, the
weights argument is resolved to the variant's sole named weight entry when
the flag is truthy and to `None` when it is falsy, and the `pretrained` key
is removed before the remaining keyword arguments are forwarded (the
configuration call receives the kwargs with the key erased, and that
dictionary no longer contains `pretrained`). -/
theorem claim1 (i : Fin 8) (cats : List String) (w : Option WeightEntry)
    (p : Bool) (kw : Kwargs)
    (h : Kwargs.hasKey kw "pretrained" = true) :
    (builders i cats w p kw).warnings = [deprecationMsg]
    ∧ (builders i cats w p kw).resolvedWeights
        = (if PyVal.truthy (Kwargs.getD kw "pretrained")
           then some (variantEntry i cats) else none)
    ∧ (isOkB (builders i cats w p kw).outcome = true →
        (confOf (builders i cats w p kw)).kwargs = Kwargs.erase kw "pretrained"
        ∧ Kwargs.hasKey (confOf (builders i cats w p kw)).kwargs "pretrained"
            = false) := by
  rw [builders_eq]
  refine ⟨?_, ?_, ?_⟩
  · simp [buildE_warnings, h]
  · simp [buildE_resolved, pretrResolve, h]
  · intro hok
    obtain ⟨hc, -⟩ := buildE_ok hok
    rw [hc]
    constructor
    · simp [stripPre, h]
    · simp [stripPre, h, Kwargs.hasKey_erase_self]

theorem claim1_witness :
    Kwargs.hasKey [("pretrained", PyVal.bool true)] "pretrained" = true
    ∧ ((builders 0 ["a"] none true [("pretrained", PyVal.bool true)]).warnings
        = [deprecationMsg]
      ∧ (builders 0 ["a"] none true [("pretrained", PyVal.bool true)]).resolvedWeights
          = (if PyVal.truthy
                (Kwargs.getD [("pretrained", PyVal.bool true)] "pretrained")
             then some (variantEntry 0 ["a"]) else none)
      ∧ (isOkB (builders 0 ["a"] none true
            [("pretrained", PyVal.bool true)]).outcome = true →
          (confOf (builders 0 ["a"] none true
              [("pretrained", PyVal.bool true)])).kwargs
            = Kwargs.erase [("pretrained", PyVal.bool true)] "pretrained"
          ∧ Kwargs.hasKey (confOf (builders 0 ["a"] none true
              [("pretrained", PyVal.bool true)])).kwargs "pretrained" = false)) :=
  ⟨by decide, claim1 0 ["a"] none true [("pretrained", PyVal.bool true)] (by decide)⟩

/-- C2: for every variant builder, whenever the resolved weights value is
not `None` the model is constructed with `num_classes` equal to the length
of `weights.meta["categories"]`; the conclusion holds for arbitrary caller
kwargs, so the inferred value overrides any `num_classes` keyword the
caller supplied. -/
theorem claim2 (i : Fin 8) (cats : List String) (w : Option WeightEntry)
    (p : Bool) (kw : Kwargs) (e : WeightEntry)
    (hok : isOkB (builders i cats w p kw).outcome = true)
    (he : (builders i cats w p kw).resolvedWeights = some e) :
    Kwargs.get? (modelOf (builders i cats w p kw)).ctorKwargs "num_classes"
      = some (PyVal.int (Int.ofNat e.meta.categories.length)) := by
  rw [builders_eq] at hok he ⊢
  obtain ⟨-, hm⟩ := buildE_ok hok
  rw [buildE_resolved] at he
  rw [hm, he, _efficientnet_ctorKwargs_some]
  exact Kwargs.get?_set_self _ _ _

theorem claim2_witness :
    isOkB (builders 0 ["a", "b"] none true
      [("pretrained", PyVal.bool true), ("num_classes", PyVal.int 7)]).outcome
        = true
    ∧ (builders 0 ["a", "b"] none true
        [("pretrained", PyVal.bool true), ("num_classes", PyVal.int 7)]).resolvedWeights
          = some (EfficientNetB0Weights.ImageNet1K_TimmV1 ["a", "b"])
    ∧ Kwargs.get? (modelOf (builders 0 ["a", "b"] none true
        [("pretrained", PyVal.bool true), ("num_classes", PyVal.int 7)])).ctorKwargs
        "num_classes"
      = some (PyVal.int (Int.ofNat
          (EfficientNetB0Weights.ImageNet1K_TimmV1 ["a", "b"]).meta.categories.length)) :=
  ⟨by decide, rfl,
    claim2 0 ["a", "b"] none true
      [("pretrained", PyVal.bool true), ("num_classes", PyVal.int 7)]
      (EfficientNetB0Weights.ImageNet1K_TimmV1 ["a", "b"]) (by decide) rfl⟩

/-- C3: for every variant builder, the checkpoint is loaded into the fresh
model exactly when the resolved weights value is not `None`: the `loaded`
field records `(weights.url, progress)` when weights resolved to an entry
and stays `none` (model returned exactly as constructed) when they resolved
to `None`. -/
theorem claim3 (i : Fin 8) (cats : List String) (w : Option WeightEntry)
    (p : Bool) (kw : Kwargs)
    (hok : isOkB (builders i cats w p kw).outcome = true) :
    (modelOf (builders i cats w p kw)).loaded
      = Option.map (fun e => (e.url, p)) (builders i cats w p kw).resolvedWeights := by
  rw [builders_eq] at hok ⊢
  obtain ⟨-, hm⟩ := buildE_ok hok
  rw [hm, _efficientnet_loaded, buildE_resolved]

theorem claim3_witness :
    isOkB (builders 1 ["a"] none false [("pretrained", PyVal.int 1)]).outcome = true
    ∧ (modelOf (builders 1 ["a"] none false [("pretrained", PyVal.int 1)])).loaded
        = Option.map (fun e => (e.url, false))
            (builders 1 ["a"] none false [("pretrained", PyVal.int 1)]).resolvedWeights :=
  ⟨by decide, claim3 1 ["a"] none false [("pretrained", PyVal.int 1)] (by decide)⟩

/-- C4: the hyperparameters each builder passes to the configuration
function and the model constructor are exactly the tabulated ones: width
multipliers 1.0, 1.0, 1.1, 1.2, 1.4, 1.6, 1.8, 2.0; depth multipliers 1.0,
1.1, 1.2, 1.4, 1.8, 2.2, 2.6, 3.1; dropout rates 0.2, 0.2, 0.3, 0.3, 0.4,
0.4, 0.5, 0.5 for B0 through B7 (see `variantWidth`, `variantDepth`,
`variantDropout`). -/
theorem claim4 (i : Fin 8) (cats : List String) (w : Option WeightEntry)
    (p : Bool) (kw : Kwargs)
    (hok : isOkB (builders i cats w p kw).outcome = true) :
    (confOf (builders i cats w p kw)).width_mult = variantWidth i
    ∧ (confOf (builders i cats w p kw)).depth_mult = variantDepth i
    ∧ (modelOf (builders i cats w p kw)).dropout = variantDropout i := by
  rw [builders_eq] at hok ⊢
  obtain ⟨hc, hm⟩ := buildE_ok hok
  refine ⟨?_, ?_, ?_⟩
  · rw [hc]
  · rw [hc]
  · rw [hm, _efficientnet_dropout]

theorem claim4_witness :
    isOkB (builders 7 ["a"] none true []).outcome = true
    ∧ ((confOf (builders 7 ["a"] none true [])).width_mult = variantWidth 7
      ∧ (confOf (builders 7 ["a"] none true [])).depth_mult = variantDepth 7
      ∧ (modelOf (builders 7 ["a"] none true [])).dropout = variantDropout 7) :=
  ⟨by decide, claim4 7 ["a"] none true [] (by decide)⟩

/-- C5: builders B5, B6 and B7 construct the model with a
`norm_layer = partial(nn.BatchNorm2d, eps=0.001, momentum=0.01)` keyword,
while B0 through B4 pass no `norm_layer` override (when the caller supplied
none, the constructor receives none). -/
theorem claim5 (i : Fin 8) (cats : List String) (w : Option WeightEntry)
    (p : Bool) (kw : Kwargs) :
    (5 ≤ i.val →
      isOkB (builders i cats w p kw).outcome = true →
      Kwargs.get? (modelOf (builders i cats w p kw)).ctorKwargs "norm_layer"
        = some (PyVal.batchNorm2d 0.001 0.01))
    ∧ (i.val ≤ 4 →
        Kwargs.hasKey kw "norm_layer" = false →
        isOkB (builders i cats w p kw).outcome = true →
        Kwargs.hasKey (modelOf (builders i cats w p kw)).ctorKwargs "norm_layer"
          = false) := by
  constructor
  · intro h5 hok
    rw [builders_eq] at hok ⊢
    have hex : variantExtra i = normLayerKw := by
      fin_cases i <;> first | rfl | exact absurd h5 (by decide)
    rw [hex] at hok ⊢
    exact normLayer_forwarded hok
  · intro h4 hnk hok
    rw [builders_eq] at hok ⊢
    have hex : variantExtra i = [] := by
      fin_cases i <;> first | rfl | exact absurd h4 (by decide)
    rw [hex] at hok ⊢
    exact normLayer_absent hnk hok

theorem claim5_witness :
    Kwargs.get? (modelOf (builders 5 ["a"] none true [])).ctorKwargs "norm_layer"
      = some (PyVal.batchNorm2d 0.001 0.01)
    ∧ Kwargs.hasKey (modelOf (builders 0 ["a"] none true [])).ctorKwargs "norm_layer"
      = false :=
  ⟨(claim5 5 ["a"] none true []).1 (by decide) (by decide),
   (claim5 0 ["a"] none true []).2 (by decide) (by decide) (by decide)⟩

/-- C6: every one of the eight weight entries carries a download URL (its
url field starts with the pytorch download prefix), a preprocessing
transform with a positive crop size, a positive resize size and BICUBIC
interpolation, and metadata containing the ImageNet categories (the
abstracted `cats` list), a positive image size, a recipe URL, and positive
acc@1 and acc@5 accuracy metrics. -/
theorem claim6 (cats : List String) (e : WeightEntry)
    (he : e ∈ allEntries cats) :
    strHasPrefix "https://download.pytorch.org/models/" e.url = true
    ∧ e.interpolation = InterpolationMode.bicubic
    ∧ e.meta.categories = cats
    ∧ e.meta.interpolation = InterpolationMode.bicubic
    ∧ strHasPrefix "https://" e.meta.recipe = true
    ∧ 0 < e.crop_size ∧ 0 < e.resize_size
    ∧ 0 < e.meta.size.1 ∧ 0 < e.meta.size.2
    ∧ 0 < e.meta.acc1 ∧ 0 < e.meta.acc5 := by
  simp only [allEntries, List.mem_cons, List.not_mem_nil, or_false] at he
  rcases he with rfl | rfl | rfl | rfl | rfl | rfl | rfl | rfl <;>
    refine ⟨of_decide_eq_true rfl, rfl, rfl, rfl, of_decide_eq_true rfl,
      of_decide_eq_true rfl, of_decide_eq_true rfl, of_decide_eq_true rfl,
      of_decide_eq_true rfl, ?_, ?_⟩ <;>
    norm_num [EfficientNetB0Weights.ImageNet1K_TimmV1,
      EfficientNetB1Weights.ImageNet1K_TimmV1,
      EfficientNetB2Weights.ImageNet1K_TimmV1,
      EfficientNetB3Weights.ImageNet1K_TimmV1,
      EfficientNetB4Weights.ImageNet1K_TimmV1,
      EfficientNetB5Weights.ImageNet1K_TFV1,
      EfficientNetB6Weights.ImageNet1K_TFV1,
      EfficientNetB7Weights.ImageNet1K_TFV1, _common_meta]

theorem claim6_witness :
    EfficientNetB0Weights.ImageNet1K_TimmV1 ["a"] ∈ allEntries ["a"]
    ∧ (strHasPrefix "https://download.pytorch.org/models/"
        (EfficientNetB0Weights.ImageNet1K_TimmV1 ["a"]).url = true
      ∧ (EfficientNetB0Weights.ImageNet1K_TimmV1 ["a"]).interpolation
          = InterpolationMode.bicubic
      ∧ (EfficientNetB0Weights.ImageNet1K_TimmV1 ["a"]).meta.categories = ["a"]
      ∧ (EfficientNetB0Weights.ImageNet1K_TimmV1 ["a"]).meta.interpolation
          = InterpolationMode.bicubic
      ∧ strHasPrefix "https://"
          (EfficientNetB0Weights.ImageNet1K_TimmV1 ["a"]).meta.recipe = true
      ∧ 0 < (EfficientNetB0Weights.ImageNet1K_TimmV1 ["a"]).crop_size
      ∧ 0 < (EfficientNetB0Weights.ImageNet1K_TimmV1 ["a"]).resize_size
      ∧ 0 < (EfficientNetB0Weights.ImageNet1K_TimmV1 ["a"]).meta.size.1
      ∧ 0 < (EfficientNetB0Weights.ImageNet1K_TimmV1 ["a"]).meta.size.2
      ∧ 0 < (EfficientNetB0Weights.ImageNet1K_TimmV1 ["a"]).meta.acc1
      ∧ 0 < (EfficientNetB0Weights.ImageNet1K_TimmV1 ["a"]).meta.acc5) :=
  ⟨List.mem_cons_self _ _,
   claim6 ["a"] (EfficientNetB0Weights.ImageNet1K_TimmV1 ["a"])
     (List.mem_cons_self _ _)⟩

/-- C7: the module provides exactly eight factory functions
`efficientnet_b0` .. `efficientnet_b7` and eight weight enum classes, each
holding exactly one named entry (`ImageNet1K_TimmV1` for B0-B4,
`ImageNet1K_TFV1` for B5-B7), and all sixteen of those names are listed in
`__all__`. -/
theorem claim7 :
    List.map Prod.fst factories = factoryNames
    ∧ List.map Prod.fst weightEnums = enumNames
    ∧ factoryNames.length = 8
    ∧ enumNames.length = 8
    ∧ ((factoryNames ++ enumNames).all (fun n => __all__.contains n)) = true
    ∧ (∀ cats : List String,
        List.map (fun pr => List.map Prod.fst (pr.2 cats)) weightEnums
          = [["ImageNet1K_TimmV1"], ["ImageNet1K_TimmV1"], ["ImageNet1K_TimmV1"],
             ["ImageNet1K_TimmV1"], ["ImageNet1K_TimmV1"], ["ImageNet1K_TFV1"],
             ["ImageNet1K_TFV1"], ["ImageNet1K_TFV1"]]) :=
  ⟨rfl, rfl, rfl, rfl, by decide, fun cats => rfl⟩

/-- C8: for every variant builder, when the `pretrained` keyword is present
the explicitly supplied weights argument is discarded: the result does not
depend on it at all, and the resolved weights are the variant's default
entry when the flag is truthy and `None` when it is falsy. -/
theorem claim8 (i : Fin 8) (cats : List String) (w w2 : Option WeightEntry)
    (p : Bool) (kw : Kwargs)
    (h : Kwargs.hasKey kw "pretrained" = true) :
    builders i cats w p kw = builders i cats w2 p kw
    ∧ (builders i cats w p kw).resolvedWeights
        = (if PyVal.truthy (Kwargs.getD kw "pretrained")
           then some (variantEntry i cats) else none) := by
  constructor
  · rw [builders_eq i cats w p kw, builders_eq i cats w2 p kw]
    simp [buildEfficientNet, pretrResolve, h]
  · rw [builders_eq]
    simp [buildE_resolved, pretrResolve, h]

theorem claim8_witness :
    Kwargs.hasKey [("pretrained", PyVal.bool false)] "pretrained" = true
    ∧ (builders 2 [] (some (variantEntry 2 [])) true
          [("pretrained", PyVal.bool false)]
        = builders 2 [] none true [("pretrained", PyVal.bool false)]
      ∧ (builders 2 [] (some (variantEntry 2 [])) true
            [("pretrained", PyVal.bool false)]).resolvedWeights
          = (if PyVal.truthy
                (Kwargs.getD [("pretrained", PyVal.bool false)] "pretrained")
             then some (variantEntry 2 []) else none)) :=
  ⟨by decide,
   claim8 2 [] (some (variantEntry 2 [])) none true
     [("pretrained", PyVal.bool false)] (by decide)⟩

/-- C9: for every one of the eight weight entries, the metadata `size`
equals `(c, c)` where `c` is the transform's crop size, and the resize size
is at least the crop size. -/
theorem claim9 (cats : List String) (e : WeightEntry)
    (he : e ∈ allEntries cats) :
    e.meta.size = (e.crop_size, e.crop_size)
    ∧ e.crop_size ≤ e.resize_size := by
  simp only [allEntries, List.mem_cons, List.not_mem_nil, or_false] at he
  rcases he with rfl | rfl | rfl | rfl | rfl | rfl | rfl | rfl <;>
    exact ⟨rfl, of_decide_eq_true rfl⟩

theorem claim9_witness :
    EfficientNetB3Weights.ImageNet1K_TimmV1 ["a"] ∈ allEntries ["a"]
    ∧ ((EfficientNetB3Weights.ImageNet1K_TimmV1 ["a"]).meta.size
        = ((EfficientNetB3Weights.ImageNet1K_TimmV1 ["a"]).crop_size,
           (EfficientNetB3Weights.ImageNet1K_TimmV1 ["a"]).crop_size)
      ∧ (EfficientNetB3Weights.ImageNet1K_TimmV1 ["a"]).crop_size
          ≤ (EfficientNetB3Weights.ImageNet1K_TimmV1 ["a"]).resize_size) :=
  ⟨by exact List.mem_cons_self _ _ |>.tail _ |>.tail _ |>.tail _ |> id,
   claim9 ["a"] (EfficientNetB3Weights.ImageNet1K_TimmV1 ["a"])
     (by exact List.mem_cons_self _ _ |>.tail _ |>.tail _ |>.tail _ |> id)⟩

/-- C10 counterexample: a single extra keyword does not always reach the
two callees.  Calling `efficientnet_b0` with the extra keyword
`width_mult` raises a `TypeError` (the splatted key collides with the
explicit `width_mult=1.0` of the `_efficientnet_conf` call), so no call is
forwarded at all. -/
theorem claim10_cex :
    (efficientnet_b0 [] none true [("width_mult", PyVal.int 2)]).outcome
      = Except.error typeErrMsg := rfl

/-- C10 (amended): on runs that complete, the kwargs remaining after
`pretrained` removal are passed verbatim to `_efficientnet_conf`; the
`EfficientNet` constructor receives the same dictionary prefixed with the
builder's own `norm_layer` keyword (B5-B7 only) and with `num_classes` set
to the category count whenever weights resolved non-None; a remaining
keyword that collides with an explicitly passed parameter name instead
raises a `TypeError` (see the counterexample). -/
theorem claim10_amended (i : Fin 8) (cats : List String)
    (w : Option WeightEntry) (p : Bool) (kw : Kwargs)
    (hok : isOkB (builders i cats w p kw).outcome = true) :
    (confOf (builders i cats w p kw)).kwargs = stripPre kw
    ∧ (modelOf (builders i cats w p kw)).ctorKwargs
        = (match (builders i cats w p kw).resolvedWeights with
           | some e => Kwargs.set (variantExtra i ++ stripPre kw) "num_classes"
               (PyVal.int (Int.ofNat e.meta.categories.length))
           | none => variantExtra i ++ stripPre kw) := by
  rw [builders_eq] at hok ⊢
  obtain ⟨hc, hm⟩ := buildE_ok hok
  constructor
  · rw [hc]
  · rw [hm, buildE_resolved]
    cases hres : pretrResolve (variantEntry i) cats w kw with
    | none => rw [_efficientnet_ctorKwargs_none]
    | some e => rw [_efficientnet_ctorKwargs_some]

theorem claim10_amended_witness :
    isOkB (builders 6 ["a"] none true
      [("pretrained", PyVal.bool true), ("foo", PyVal.int 3)]).outcome = true
    ∧ ((confOf (builders 6 ["a"] none true
          [("pretrained", PyVal.bool true), ("foo", PyVal.int 3)])).kwargs
        = stripPre [("pretrained", PyVal.bool true), ("foo", PyVal.int 3)]
      ∧ (modelOf (builders 6 ["a"] none true
            [("pretrained", PyVal.bool true), ("foo", PyVal.int 3)])).ctorKwargs
          = (match (builders 6 ["a"] none true
                [("pretrained", PyVal.bool true), ("foo", PyVal.int 3)]).resolvedWeights with
             | some e => Kwargs.set
                 (variantExtra 6
                   ++ stripPre [("pretrained", PyVal.bool true), ("foo", PyVal.int 3)])
                 "num_classes" (PyVal.int (Int.ofNat e.meta.categories.length))
             | none => variantExtra 6
                 ++ stripPre [("pretrained", PyVal.bool true), ("foo", PyVal.int 3)])) :=
  ⟨by decide,
   claim10_amended 6 ["a"] none true
     [("pretrained", PyVal.bool true), ("foo", PyVal.int 3)] (by decide)⟩
